import Mathlib

/-
Shallow embedding of the go-idx iDeal/iDIN client (package idx):
  * client.go          -- CommonClient, Directory parsing, message signing
  * src/unnamed/part_000 (ideal.go) -- IDealClient, payment-variant status
  * src/unnamed/part_001 (README + idin.go) -- IDINClient, identity variant

XML element trees (github.com/beevik/etree) are modelled by the nested
inductive `Elem`.  Relevant etree semantics, mirrored here:

  * `Element.FindElement`/`FindElements` with a path beginning in a slash
    resolve from the ROOT of the tree that contains the receiver (etree's
    documented `/` selector: "when used at the beginning of a path, selects
    the root element"; the implementation walks the `parent` chain to the
    top).  The first path component then selects among the root's children.
    In this embedding `findPath`/`pathAll` always start at the element they
    are given, so call sites of absolute paths pass the tree root explicitly.
    For every call site in this repository except the two inner loops of
    `parseDirectoryRequest`, the receiver of the absolute path already is
    the top of its tree (validated responses returned by goxmldsig's
    `Validate` are detached copies), so receiver and tree root coincide.
    In `parseDirectoryRequest` the receivers `countryEl`/`issuerEl` are
    interior nodes and the absolute paths resolve from the shared root.
  * A relative path (no leading slash) starts at the receiver itself.
  * `FindElement` returns the first match in document order; calling
    `.Text()` or `.SelectAttrValue` or `.ChildElements()` on the nil result
    of a failed lookup is a runtime panic, modelled as the error
    `IdxError.nilPanic`.
  * `SelectAttrValue key dflt` returns the first attribute value for `key`,
    or `dflt` when absent.
  * `InsertChild ex t` where `t` already is a child moves `t` in front of
    the child `ex`.
-/

structure Attr where
  key : String
  value : String

inductive Elem : Type where
  | mk (tag : String) (attrs : List Attr) (text : String) (children : List Elem)

def Elem.tag : Elem → String
  | .mk t _ _ _ => t

def Elem.attrs : Elem → List Attr
  | .mk _ a _ _ => a

def Elem.text : Elem → String
  | .mk _ _ s _ => s

def Elem.children : Elem → List Elem
  | .mk _ _ _ c => c

/-- Children of `e` carrying tag `t`, in document order. -/
def childrenTag (t : String) (e : Elem) : List Elem :=
  e.children.filter (fun c => c.tag == t)

/-- etree path evaluation restricted to child-tag selectors: starting from
`e`, each component descends into the matching children, preserving document
order.  Used for relative paths (receiver = `e`) and for absolute paths
(caller passes the tree root as `e`). -/
def pathAll (e : Elem) (path : List String) : List Elem :=
  path.foldl (fun es t => es.flatMap (childrenTag t)) [e]

/-- etree `FindElement`: first element matched by the path, in document
order. -/
def findPath (e : Elem) (path : List String) : Option Elem :=
  (pathAll e path).head?

/-- etree `SelectAttrValue`. -/
def Elem.attrValue (e : Elem) (key dflt : String) : String :=
  match e.attrs.find? (fun a => a.key == key) with
  | some a => a.value
  | none => dflt

def Elem.hasChildTag (e : Elem) (t : String) : Bool :=
  e.children.any (fun c => c.tag == t)

/-- etree `CreateElement` on a parent: append a child element. -/
def Elem.appendChild (e t : Elem) : Elem :=
  .mk e.tag e.attrs e.text (e.children ++ [t])

/-- Rebuild a list by applying `f` to its first element satisfying `p`;
`none` when no element satisfies `p`. -/
def updateFirst (p : Elem → Bool) (f : Elem → Elem) : List Elem → Option (List Elem)
  | [] => none
  | c :: cs =>
    if p c then some (f c :: cs)
    else (updateFirst p f cs).map (fun l => c :: l)

/-- Mutation of the element returned by `FindElement` of a child tag: apply
`f` to the first child of `e` tagged `t` (a no-op when absent; at every call
site in this repository the child exists by construction). -/
def updateFirstTagged (e : Elem) (t : String) (f : Elem → Elem) : Elem :=
  .mk e.tag e.attrs e.text ((updateFirst (fun c => c.tag == t) f e.children).getD e.children)

/-- etree `msg.InsertChild(merchantEl, issuerEl)` at the call sites of this
repository: the freshly created last child is removed from its position and
re-inserted immediately before the first child tagged `exTag`. -/
def moveLastChildBeforeFirstTag (e : Elem) (exTag : String) : Elem :=
  match e.children.getLast? with
  | none => e
  | some t =>
    let rest := e.children.dropLast
    match rest.findIdx? (fun c => c.tag == exTag) with
    | none => e
    | some i => .mk e.tag e.attrs e.text (rest.take i ++ t :: rest.drop i)

/-- Go `map[string]string` assignment: overwrite an existing key, otherwise
append the binding. -/
def mapInsert (m : List (String × String)) (k v : String) : List (String × String) :=
  if m.any (fun p => p.1 == k) then
    m.map (fun p => if p.1 = k then (p.1, v) else p)
  else m ++ [(k, v)]

/-- TransactionStatus enum of client.go (`InvalidStatus` is the zero value
produced by the `default` branch of the status switch). -/
inductive TransactionStatus : Type where
  | InvalidStatus
  | Success
  | Cancelled
  | Expired
  | Failure
  | Open
deriving DecidableEq

/-- AcquirerError of client.go: the structured failure a bank may return to
any API call. -/
structure AcquirerError where
  ErrorCode : String
  ErrorMessage : String
  ErrorDetail : String
  ConsumerMessage : String

/-- Failure outcomes of the modelled operations.  `nilPanic` stands for the
Go runtime panic raised by dereferencing the nil result of a failed
`FindElement`/`ChildElements` lookup (or an out-of-range index), `signPanic`
for the `panic(err)` in `signMessage`, `validation` for a signature
validation failure reported by the goxmldsig oracle, `idMismatch` for
"idx: returned transaction ID does not match", `invalidStatus` for
"ideal: invalid status: "/"idin: invalid status: ", and `decryptError` for
an error of `xmlenc.DecryptElement`. -/
inductive IdxError : Type where
  | nilPanic
  | signPanic (msg : String)
  | acquirer (e : AcquirerError)
  | validation (msg : String)
  | idMismatch
  | invalidStatus (s : String)
  | decryptError (s : String)

/-- A single issuer (bank) of a directory response. -/
structure Issuer where
  IssuerID : String
  IssuerName : String

/-- The directory listing: Go `map[string][]Issuer`, modelled as an
association list in key-insertion order. -/
structure Directory where
  Issuers : List (String × List Issuer)

/-- Go `directory.Issuers[countryName] = append(directory.Issuers[countryName], v)`:
append `v` to the list at key `k`, creating the key when absent. -/
def dirAppend (d : List (String × List Issuer)) (k : String) (v : Issuer) :
    List (String × List Issuer) :=
  if d.any (fun p => p.1 == k) then
    d.map (fun p => if p.1 = k then (p.1, p.2 ++ [v]) else p)
  else d ++ [(k, [v])]

/-- CommonClient of client.go.  `certificate` is the DER certificate chain
`tls.Certificate.Certificate` ([][]byte, bytes as Nat).  The transport
fields (BaseURL, AcquirerCert) belong to external collaborators and carry no
modelled behaviour. -/
structure CommonClient where
  merchantID : String
  subID : String
  returnURL : String
  certificate : List (List Nat)

structure IDealClient where
  common : CommonClient

structure IDINClient where
  common : CommonClient

/-- CommonClient.createMessage: root element `tag` with a UTC creation
timestamp (`now` stands for `time.Now().UTC().Format(time.RFC3339)`) and the
Merchant block. -/
def CommonClient.createMessage (c : CommonClient) (tag now : String) : Elem :=
  .mk tag [] "" [
    .mk "createDateTimestamp" [] now [],
    .mk "Merchant" [] "" [
      .mk "merchantID" [] c.merchantID [],
      .mk "subID" [] c.subID []]]

/-- IDealClient.createMessage: the common message plus the iDeal namespace
and version attributes. -/
def IDealClient.createMessage (c : IDealClient) (tag now : String) : Elem :=
  let m := c.common.createMessage tag now
  .mk m.tag (m.attrs ++ [⟨"xmlns", "http://www.idealdesk.com/ideal/messages/mer-acq/3.3.1"⟩,
    ⟨"version", "3.3.1"⟩]) m.text m.children

/-- IDINClient.createMessage: the common message plus the iDx namespace,
version and productID attributes. -/
def IDINClient.createMessage (c : IDINClient) (tag now : String) : Elem :=
  let m := c.common.createMessage tag now
  .mk m.tag (m.attrs ++ [⟨"xmlns", "http://www.betaalvereniging.nl/iDx/messages/Merchant-Acquirer/1.0.0"⟩,
    ⟨"version", "1.0.0"⟩, ⟨"productID", "NL:BVN:BankID:1.0"⟩]) m.text m.children

/-- IDealClient.NewTransaction (ideal.go): builds the AcquirerTrxReq message
of a new payment transaction.  Steps mirror the source: find the Merchant
block and append merchantReturnURL to it; create the Issuer block (appended
last); `msg.InsertChild(merchantEl, issuerEl)` moves it before the Merchant
block ("order matters: Issuer must occur before Merchant"); append the
Transaction block. -/
def IDealClient.NewTransaction (c : IDealClient)
    (issuer purchaseID amount description entranceCode now : String) : Elem :=
  let msg := c.createMessage "AcquirerTrxReq" now
  let msg := updateFirstTagged msg "Merchant"
    (fun m => m.appendChild (.mk "merchantReturnURL" [] c.common.returnURL []))
  let msg := msg.appendChild (.mk "Issuer" [] "" [.mk "issuerID" [] issuer []])
  let msg := moveLastChildBeforeFirstTag msg "Merchant"
  msg.appendChild (.mk "Transaction" [] "" [
    .mk "purchaseID" [] purchaseID [],
    .mk "amount" [] amount [],
    .mk "currency" [] "EUR" [],
    .mk "language" [] "nl" [],
    .mk "description" [] description [],
    .mk "entranceCode" [] entranceCode []])

/-- Bits of the iDIN attribute bitmask (idin.go). -/
def IDINServiceIDBIN : Int := 16384

def IDINServiceIDName : Int := 4096

def IDINServiceIDAddress : Int := 1024

def IDINServiceIDDateOfBirth : Int := 448

def IDINServiceIDGender : Int := 16

def IDINServiceIDTelephone : Int := 4

def IDINServiceIDEmail : Int := 2

/-- IDINClient.NewTransaction (idin.go): builds the AcquirerTrxReq message of
a new identity transaction.  Same Issuer/Merchant handling as the payment
variant; the Transaction block carries the samlp:AuthnRequest whose ID
attribute is the caller-supplied `id` and whose
AttributeConsumingServiceIndex attribute is `strconv.Itoa(int(attributes))`.
No argument is validated: the message is built for every input. -/
def IDINClient.NewTransaction (c : IDINClient)
    (issuer entranceCode id : String) (attributes : Int) (now : String) : Elem :=
  let msg := c.createMessage "AcquirerTrxReq" now
  let msg := updateFirstTagged msg "Merchant"
    (fun m => m.appendChild (.mk "merchantReturnURL" [] c.common.returnURL []))
  let msg := msg.appendChild (.mk "Issuer" [] "" [.mk "issuerID" [] issuer []])
  let msg := moveLastChildBeforeFirstTag msg "Merchant"
  let issueInstant := ((findPath msg ["createDateTimestamp"]).map Elem.text).getD ""
  let samlAuthRequest : Elem := .mk "samlp:AuthnRequest"
    [⟨"xmlns:samlp", "urn:oasis:names:tc:SAML:2.0:protocol"⟩,
     ⟨"xmlns:saml", "urn:oasis:names:tc:SAML:2.0:assertion"⟩,
     ⟨"ID", id⟩,
     ⟨"Version", "2.0"⟩,
     ⟨"IssueInstant", issueInstant⟩,
     ⟨"ProtocolBinding", "nl:bvn:bankid:1.0:protocol:iDx"⟩,
     ⟨"AssertionConsumerServiceURL", c.common.returnURL⟩,
     ⟨"AttributeConsumingServiceIndex", toString attributes⟩]
    ""
    [.mk "saml:Issuer" [] c.common.merchantID [],
     .mk "samlp:RequestedAuthnContext" [⟨"Comparison", "minimum"⟩] ""
       [.mk "saml:AuthnContextClassRef" [] "nl:bvn:bankid:1.0:loa3" []]]
  msg.appendChild (.mk "Transaction" [] "" [
    .mk "language" [] "nl" [],
    .mk "entranceCode" [] entranceCode [],
    .mk "container" [] "" [samlAuthRequest]])

/-- CommonClient.parseDirectoryRequest (client.go).  The outer loop is
`msg.FindElements("/Directory/Country")`; inside it, `countryEl` and
`issuerEl` are interior nodes, and all four inner lookups use ABSOLUTE etree
paths ("/Directory/Country/countryNames", "/Directory/Country/Issuer",
"/Directory/Country/Issuer/issuerID", "/Directory/Country/Issuer/issuerName"),
which etree resolves from the root of the receiver's tree, i.e. from `msg`;
the receiver only determines the tree, so the loop variables influence
nothing but the iteration count.  `FindElement` then yields the first match
in document order.  A failed lookup would make `.Text()` panic
(`nilPanic`). -/
def CommonClient.parseDirectoryRequest (msg : Elem) : Except IdxError Directory := do
  let issuers ← (pathAll msg ["Directory", "Country"]).foldlM
    (fun acc _countryEl => do
      let some cEl := findPath msg ["Directory", "Country", "countryNames"]
        | throw IdxError.nilPanic
      let countryName := cEl.text
      (pathAll msg ["Directory", "Country", "Issuer"]).foldlM
        (fun acc2 _issuerEl => do
          let some idEl := findPath msg ["Directory", "Country", "Issuer", "issuerID"]
            | throw IdxError.nilPanic
          let some nmEl := findPath msg ["Directory", "Country", "Issuer", "issuerName"]
            | throw IdxError.nilPanic
          pure (dirAppend acc2 countryName ⟨idEl.text, nmEl.text⟩))
        acc)
    ([] : List (String × List Issuer))
  pure ⟨issuers⟩

/-- IDealClient.request / IDINClient.request (identical bodies): given the
document parsed from a 200 response, detect the error envelope by the tag of
the first child element (`doc.ChildElements()[0]`, a panic when the document
is empty) before anything else; an AcquirerErrorRes root short-circuits into
the structured `AcquirerError` built from the four fixed paths, so no later
stage (in particular signature validation) runs.  `doc` is the document
node: its children are the top-level elements. -/
def clientRequest (doc : Elem) : Except IdxError Elem :=
  match doc.children.head? with
  | none => .error .nilPanic
  | some root =>
    if root.tag = "AcquirerErrorRes" then
      match findPath doc ["AcquirerErrorRes", "Error", "errorCode"],
            findPath doc ["AcquirerErrorRes", "Error", "errorMessage"],
            findPath doc ["AcquirerErrorRes", "Error", "errorDetail"],
            findPath doc ["AcquirerErrorRes", "Error", "consumerMessage"] with
      | some c, some m, some d, some cm =>
        .error (.acquirer ⟨c.text, m.text, d.text, cm.text⟩)
      | _, _, _, _ => .error .nilPanic
    else .ok doc

/-- CommonClient.validateMessage: verifies the enveloped signature of
`msg.ChildElements()[0]` against the acquirer certificate.  The goxmldsig
`Validate` call is the oracle `validate`; it returns the validated element
tree (a detached copy) or a validation failure. -/
def CommonClient.validateMessage (validate : Elem → Except IdxError Elem)
    (doc : Elem) : Except IdxError Elem :=
  match doc.children.head? with
  | none => .error .nilPanic
  | some root => validate root

/-- The response-processing pipeline of IDealClient.DirectoryRequest /
IDINClient.DirectoryRequest from the received document on: `request`'s
error-envelope detection, then signature validation, then directory
parsing. -/
def directoryRequestInterpret (validate : Elem → Except IdxError Elem)
    (doc : Elem) : Except IdxError Directory := do
  let doc' ← clientRequest doc
  let response ← CommonClient.validateMessage validate doc'
  CommonClient.parseDirectoryRequest response

/-- IDealTransactionStatus (ideal.go): fields besides Status are only set
when Status equals Success; Go zero value of the other fields is "". -/
structure IDealTransactionStatus where
  Status : TransactionStatus
  ConsumerName : String
  ConsumerIBAN : String
  ConsumerBIC : String
  Amount : String
  Currency : String

/-- Status switch of IDealClient.TransactionStatus: map the five known
status texts, anything else to InvalidStatus (the `default` branch). -/
def parseIdealStatusText (s : String) : TransactionStatus :=
  if s = "Success" then .Success
  else if s = "Cancelled" then .Cancelled
  else if s = "Expired" then .Expired
  else if s = "Failure" then .Failure
  else if s = "Open" then .Open
  else .InvalidStatus

/-- IDealClient.TransactionStatus (ideal.go), response interpretation after
`validateMessage` returned `response` (a detached AcquirerStatusRes root, so
the receiver of the absolute paths is the tree root): read and compare the
echoed transaction ID, map the status text, error on InvalidStatus, populate
the consumer fields only for Success. -/
def IDealClient.TransactionStatusInterpret (trxid : String) (response : Elem) :
    Except IdxError IDealTransactionStatus :=
  match findPath response ["Transaction", "transactionID"] with
  | none => .error .nilPanic
  | some tEl =>
    if tEl.text ≠ trxid then .error .idMismatch
    else
      match findPath response ["Transaction", "status"] with
      | none => .error .nilPanic
      | some sEl =>
        let status := parseIdealStatusText sEl.text
        if status = .InvalidStatus then .error (.invalidStatus sEl.text)
        else if status = .Success then
          match findPath response ["Transaction", "consumerName"],
                findPath response ["Transaction", "consumerIBAN"],
                findPath response ["Transaction", "consumerBIC"],
                findPath response ["Transaction", "amount"],
                findPath response ["Transaction", "currency"] with
          | some nEl, some ibEl, some bicEl, some amEl, some cuEl =>
            .ok ⟨status, nEl.text, ibEl.text, bicEl.text, amEl.text, cuEl.text⟩
          | _, _, _, _, _ => .error .nilPanic
        else .ok ⟨status, "", "", "", "", ""⟩

/-- IDINTransactionStatus (idin.go): the attribute mapping is only populated
after a successful transaction ([] otherwise; Go leaves the map nil). -/
structure IDINTransactionStatus where
  Status : TransactionStatus
  Attributes : List (String × String)

/-- Status switch of IDINClient.TransactionStatus on the SAML status URI
carried by the Value attribute; the `default` branch returns the
invalid-status error, so unknown URIs map to `none` here. -/
def parseSamlStatusValue (s : String) : Option TransactionStatus :=
  if s = "urn:oasis:names:tc:SAML:2.0:status:Success" then some .Success
  else if s = "urn:oasis:names:tc:SAML:2.0:status:Cancelled" then some .Cancelled
  else if s = "urn:oasis:names:tc:SAML:2.0:status:Expired" then some .Expired
  else if s = "urn:oasis:names:tc:SAML:2.0:status:Failure" then some .Failure
  else if s = "urn:oasis:names:tc:SAML:2.0:status:Open" then some .Open
  else none

/-- Per-element body of the decryption loop of IDINClient.TransactionStatus:
`xmlenc.DecryptElement` (the `decrypt` oracle, failing with the library
error string), then the decrypted element's Attribute Name attribute and
first AttributeValue (relative paths from the decrypted element; a missing
element is a nil-dereference panic), inserted into the Go map. -/
def decryptAttributes (decrypt : Elem → Except String Elem) :
    List Elem → List (String × String) → Except IdxError (List (String × String))
  | [], acc => .ok acc
  | el :: rest, acc =>
    match decrypt el with
    | .error e => .error (.decryptError e)
    | .ok del =>
      match findPath del ["Attribute"] with
      | none => .error .nilPanic
      | some attrEl =>
        let key := attrEl.attrValue "Name" ""
        match findPath del ["Attribute", "AttributeValue"] with
        | none => .error .nilPanic
        | some vEl => decryptAttributes decrypt rest (mapInsert acc key vEl.text)

/-- The path of the encrypted attribute elements in the iDIN status
response. -/
def encryptedDataPath : List String :=
  ["AcquirerStatusRes", "Transaction", "container", "Response", "Assertion",
   "AttributeStatement", "EncryptedAttribute", "EncryptedData"]

/-- IDINClient.TransactionStatus (idin.go), response interpretation after
`validateMessage` returned `root`: read and compare the echoed transaction
ID, read the SAML status URI from the Value attribute of the StatusCode
element (`SelectAttrValue` with default ""), error on an unknown URI, and
for Success decrypt every EncryptedData element into the attribute map,
aborting on the first decryption failure. -/
def IDINClient.TransactionStatusInterpret (decrypt : Elem → Except String Elem)
    (trxid : String) (root : Elem) : Except IdxError IDINTransactionStatus :=
  match findPath root ["AcquirerStatusRes", "Transaction", "transactionID"] with
  | none => .error .nilPanic
  | some tEl =>
    if tEl.text ≠ trxid then .error .idMismatch
    else
      match findPath root ["AcquirerStatusRes", "Transaction", "container",
                           "Response", "Status", "StatusCode"] with
      | none => .error .nilPanic
      | some scEl =>
        let statusString := scEl.attrValue "Value" ""
        match parseSamlStatusValue statusString with
        | none => .error (.invalidStatus statusString)
        | some status =>
          if status = .Success then
            (decryptAttributes decrypt (pathAll root encryptedDataPath) []).map
              (fun attrs => ⟨status, attrs⟩)
          else .ok ⟨status, []⟩

/-- Lower-case hexadecimal digit, as produced by Go `encoding/hex`. -/
def hexDigit (n : Nat) : Char :=
  if n < 10 then Char.ofNat (48 + n) else Char.ofNat (87 + n)

/-- Go `hex.EncodeToString` of one byte: two lower-case hex digits. -/
def hexEncodeByte (b : Nat) : String :=
  String.mk [hexDigit (b % 256 / 16), hexDigit (b % 16)]

/-- Go `hex.EncodeToString` over a byte slice. -/
def hexEncode (bs : List Nat) : String :=
  String.join (bs.map hexEncodeByte)

/-- Go `strings.ToUpper`; on the ASCII output of `hexEncode` this is plain
character upper-casing. -/
def goToUpper (s : String) : String :=
  String.mk (s.data.map Char.toUpper)

/-- Go `xml.Header`: the XML declaration prepended to the serialized
document. -/
def xmlHeader : String :=
  "<?xml version=\"1.0\" encoding=\"UTF-8\"?>\n"

/-- KeyInfo surgery of signMessage: the loop `for _, child := range
keyInfo.ChildElements() { keyInfo.RemoveChild(child) }` removes every child
element, then `keyInfo.CreateElement("KeyName").SetText(...)` leaves the
KeyName element as the only child. -/
def setKeyName (knText : String) (ki : Elem) : Elem :=
  .mk ki.tag ki.attrs ki.text [.mk "KeyName" [] knText []]

/-- `signed.FindElement("/Signature/KeyInfo")` followed by the KeyInfo
surgery: the first KeyInfo in document order on the path is the first
KeyInfo child of the first Signature child that has one; `none` when the
lookup fails (in Go the subsequent `ChildElements` call then panics). -/
def replaceKeyInfo (signed : Elem) (knText : String) : Option Elem :=
  (updateFirst (fun c => c.tag == "Signature" && c.hasChildTag "KeyInfo")
      (fun sig => .mk sig.tag sig.attrs sig.text
        ((updateFirst (fun k => k.tag == "KeyInfo") (setKeyName knText) sig.children).getD
          sig.children))
      signed.children).map
    (fun cs => .mk signed.tag signed.attrs signed.text cs)

/-- CommonClient.signMessage (client.go): sign the message with an enveloped
signature (the goxmldsig `SignEnveloped` oracle `sign`; a signing error is
`panic(err)`), compute the upper-case hex SHA-1 digest of the DER leaf
certificate `c.Certificate.Certificate[0]` (the `sha1` oracle is the digest
function; indexing an empty chain panics), replace the KeyInfo content by a
KeyName element carrying that digest, and serialize the document (`serialize`
stands for etree `Document.WriteToString`) behind `xml.Header`. -/
def CommonClient.signMessage (sign : Elem → Except String Elem)
    (serialize : Elem → String) (sha1 : List Nat → List Nat)
    (c : CommonClient) (msg : Elem) : Except IdxError String :=
  match sign msg with
  | .error e => .error (.signPanic e)
  | .ok signed =>
    match c.certificate with
    | [] => .error .nilPanic
    | leaf :: _ =>
      let keyNameString := goToUpper (hexEncode (sha1 leaf))
      match replaceKeyInfo signed keyNameString with
      | none => .error .nilPanic
      | some tree => .ok (xmlHeader ++ serialize tree)

/-- Leaf element without attributes. -/
def elT (tag text : String) : Elem :=
  .mk tag [] text []

/-- Interior element without attributes or text. -/
def elC (tag : String) (children : List Elem) : Elem :=
  .mk tag [] "" children

/-- A validated directory response with two countries, "Netherlands" with
issuers INGBNL2A/ING and RABONL2U/Rabobank, "Belgium" with issuer
GEBABEBB/BNP (the spec's directory example), in the DirectoryRes shape of
the protocol. -/
def exampleDirectoryResponse : Elem :=
  elC "DirectoryRes" [
    elT "createDateTimestamp" "2026-01-01T00:00:00Z",
    elC "Acquirer" [elT "acquirerID" "0001"],
    elC "Directory" [
      elT "directoryDateTimestamp" "2025-12-01T00:00:00Z",
      elC "Country" [
        elT "countryNames" "Netherlands",
        elC "Issuer" [elT "issuerID" "INGBNL2A", elT "issuerName" "ING"],
        elC "Issuer" [elT "issuerID" "RABONL2U", elT "issuerName" "Rabobank"]],
      elC "Country" [
        elT "countryNames" "Belgium",
        elC "Issuer" [elT "issuerID" "GEBABEBB", elT "issuerName" "BNP"]]]]

/-- A validated payment-variant status response echoing transaction ID
"TX2" with status text "Success" (the spec's substitution example). -/
def exampleIdealEchoTX2 : Elem :=
  elC "AcquirerStatusRes" [
    elT "createDateTimestamp" "2026-01-01T00:00:00Z",
    elC "Transaction" [
      elT "transactionID" "TX2",
      elT "status" "Success",
      elT "consumerName" "J. Doe",
      elT "consumerIBAN" "NL13TEST0123456789",
      elT "consumerBIC" "INGBNL2A",
      elT "amount" "1.00",
      elT "currency" "EUR"]]

/-- An identity-variant status response tree whose shape makes every lookup
of IDINClient.TransactionStatus resolve (an AcquirerStatusRes element with
the Transaction below it), echoing "TX2" with a Success status URI. -/
def exampleIdinEchoTX2 : Elem :=
  elC "Document" [
    elC "AcquirerStatusRes" [
      elT "createDateTimestamp" "2026-01-01T00:00:00Z",
      elC "Transaction" [
        elT "transactionID" "TX2",
        elC "container" [
          elC "Response" [
            elC "Status" [
              Elem.mk "StatusCode"
                [⟨"Value", "urn:oasis:names:tc:SAML:2.0:status:Success"⟩] "" []]]]]]]

/-- A received error-envelope document (document node wrapping the
AcquirerErrorRes root), with the four fields of the spec's SO1000
example. -/
def exampleErrorEnvelopeDoc : Elem :=
  elC "" [
    elC "AcquirerErrorRes" [
      elT "createDateTimestamp" "2026-01-01T00:00:00Z",
      elC "Error" [
        elT "errorCode" "SO1000",
        elT "errorMessage" "System error",
        elT "errorDetail" "...",
        elT "consumerMessage" "Something went wrong"]]]

/-- A validated payment-variant status response carrying the unknown status
text "Weird" for transaction TX1. -/
def exampleIdealWeirdStatus : Elem :=
  elC "AcquirerStatusRes" [
    elC "Transaction" [
      elT "transactionID" "TX1",
      elT "status" "Weird"]]

/-- An identity-variant status response (fully resolvable shape) carrying an
unknown status URI for transaction TX1. -/
def exampleIdinWeirdStatus : Elem :=
  elC "Document" [
    elC "AcquirerStatusRes" [
      elC "Transaction" [
        elT "transactionID" "TX1",
        elC "container" [
          elC "Response" [
            elC "Status" [
              Elem.mk "StatusCode"
                [⟨"Value", "urn:oasis:names:tc:SAML:2.0:status:Weird"⟩] "" []]]]]]]

/-- A validated payment-variant status response for TX1 with status Success
and populated consumer fields. -/
def exampleIdealSuccess : Elem :=
  elC "AcquirerStatusRes" [
    elC "Transaction" [
      elT "transactionID" "TX1",
      elT "status" "Success",
      elT "consumerName" "J. Doe",
      elT "consumerIBAN" "NL13TEST0123456789",
      elT "consumerBIC" "INGBNL2A",
      elT "amount" "1.00",
      elT "currency" "EUR"]]

/-- A validated payment-variant status response for TX1 with status Open and
no payload fields. -/
def exampleIdealOpen : Elem :=
  elC "AcquirerStatusRes" [
    elC "Transaction" [
      elT "transactionID" "TX1",
      elT "status" "Open"]]

/-- An identity-variant Success status response (fully resolvable shape)
with two encrypted attribute elements. -/
def exampleIdinSuccessTwoAttrs : Elem :=
  elC "Document" [
    elC "AcquirerStatusRes" [
      elC "Transaction" [
        elT "transactionID" "TX1",
        elC "container" [
          elC "Response" [
            elC "Status" [
              Elem.mk "StatusCode"
                [⟨"Value", "urn:oasis:names:tc:SAML:2.0:status:Success"⟩] "" []],
            elC "Assertion" [
              elC "AttributeStatement" [
                elC "EncryptedAttribute" [
                  Elem.mk "EncryptedData" [⟨"Id", "enc1"⟩] "" []],
                elC "EncryptedAttribute" [
                  Elem.mk "EncryptedData" [⟨"Id", "enc2"⟩] "" []]]]]]]]]

/-- A decryption oracle that succeeds on the first encrypted element of
`exampleIdinSuccessTwoAttrs` (yielding a well-formed decrypted attribute)
and fails on the second with the error "idx: decryption failed". -/
def exampleDecrypt : Elem → Except String Elem :=
  fun e =>
    if e.attrValue "Id" "" = "enc1" then
      .ok (elC "wrapper" [
        Elem.mk "Attribute" [⟨"Name", "urn:nl:bvn:bankid:1.0:consumer.initials"⟩] ""
          [elT "AttributeValue" "JD"]])
    else .error "idx: decryption failed"

/-- A signing oracle standing for goxmldsig SignEnveloped: it appends an
enveloped Signature block whose KeyInfo carries the library's default
X509Data content. -/
def exampleSign : Elem → Except String Elem :=
  fun m =>
    .ok (m.appendChild (elC "Signature" [
      elC "SignedInfo" [],
      elT "SignatureValue" "c2lnbmF0dXJl",
      elC "KeyInfo" [elC "X509Data" [elT "X509Certificate" "Y2VydA=="]]]))

/-- A serialization oracle standing for etree Document.WriteToString. -/
def exampleSerialize : Elem → String :=
  fun _ => "<AcquirerTrxReq>...</AcquirerTrxReq>"

/-- A digest oracle standing for crypto/sha1: a fixed 20-byte digest. -/
def exampleSha1 : List Nat → List Nat :=
  fun _ => [18, 52, 86, 120, 154, 188, 222, 240, 18, 52, 86, 120, 154, 188,
    222, 240, 18, 52, 86, 120]

/-- A concrete configured client. -/
def exampleCommonClient : CommonClient :=
  ⟨"MERCHANT01", "0", "https://example.org/return", [[48, 130, 1, 10]]⟩

/-- The five status texts the payment-variant status switch recognizes. -/
def idealStatusTexts : List String :=
  ["Success", "Cancelled", "Expired", "Failure", "Open"]

/-- The five SAML status URIs the identity-variant status switch
recognizes. -/
def samlStatusURIs : List String :=
  ["urn:oasis:names:tc:SAML:2.0:status:Success",
   "urn:oasis:names:tc:SAML:2.0:status:Cancelled",
   "urn:oasis:names:tc:SAML:2.0:status:Expired",
   "urn:oasis:names:tc:SAML:2.0:status:Failure",
   "urn:oasis:names:tc:SAML:2.0:status:Open"]

/-- The output of `exampleSign` on an empty AcquirerTrxReq element. -/
def exampleSignedTree : Elem :=
  elC "AcquirerTrxReq" [elC "Signature" [
    elC "SignedInfo" [],
    elT "SignatureValue" "c2lnbmF0dXJl",
    elC "KeyInfo" [elC "X509Data" [elT "X509Certificate" "Y2VydA=="]]]]

/-- `exampleSignedTree` after the KeyInfo surgery of signMessage with the
upper-case hex digest of `exampleSha1`. -/
def exampleReplacedTree : Elem :=
  elC "AcquirerTrxReq" [elC "Signature" [
    elC "SignedInfo" [],
    elT "SignatureValue" "c2lnbmF0dXJl",
    Elem.mk "KeyInfo" [] ""
      [Elem.mk "KeyName" [] "123456789ABCDEF0123456789ABCDEF012345678" []]]]

/-- Helper: the status switch of the payment variant maps any text outside
the five known ones to InvalidStatus. -/
theorem parseIdealStatusText_invalid (s : String) (h : s ∉ idealStatusTexts) :
    parseIdealStatusText s = .InvalidStatus := by
  simp [idealStatusTexts] at h
  simp [parseIdealStatusText, h.1, h.2.1, h.2.2.1, h.2.2.2.1, h.2.2.2.2]

/-- Helper: the status switch of the identity variant maps any URI outside
the five known ones to its default branch. -/
theorem parseSamlStatusValue_unknown (s : String) (h : s ∉ samlStatusURIs) :
    parseSamlStatusValue s = none := by
  simp [samlStatusURIs] at h
  simp [parseSamlStatusValue, h.1, h.2.1, h.2.2.1, h.2.2.2.1, h.2.2.2.2]

/-- Helper: the attribute decryption loop propagates the first decryption
failure, whatever was decrypted before. -/
theorem decryptAttributes_first_error (decrypt : Elem → Except String Elem) (d : String)
    (bad : Elem) (hbad : decrypt bad = .error d) :
    ∀ (pre post : List Elem),
      (∀ x ∈ pre, ∃ dx aEl vEl, decrypt x = .ok dx ∧ findPath dx ["Attribute"] = some aEl ∧
        findPath dx ["Attribute", "AttributeValue"] = some vEl) →
      ∀ acc, decryptAttributes decrypt (pre ++ bad :: post) acc = .error (.decryptError d) := by
  intro pre
  induction pre with
  | nil =>
    intro post _ acc
    simp [decryptAttributes, hbad]
  | cons c cs ih =>
    intro post hpre acc
    obtain ⟨dx, aEl, vEl, hdx, ha, hv⟩ := hpre c (by simp)
    simp only [List.cons_append, decryptAttributes, hdx, ha, hv]
    exact ih post (fun x hx => hpre x (by simp [hx])) _

/-- Helper: a successful `updateFirst` splits the list around the first
element satisfying the predicate. -/
theorem updateFirst_eq_some (p : Elem → Bool) (f : Elem → Elem) :
    ∀ (l l' : List Elem), updateFirst p f l = some l' →
      ∃ pre c post, l = pre ++ c :: post ∧ (∀ x ∈ pre, p x = false) ∧ p c = true ∧
        l' = pre ++ f c :: post := by
  intro l
  induction l with
  | nil => intro l' h; simp [updateFirst] at h
  | cons c cs ih =>
    intro l' h
    by_cases hp : p c
    · rw [updateFirst, if_pos hp] at h
      exact ⟨[], c, cs, rfl, by simp, hp, by simpa using h.symm⟩
    · rw [updateFirst, if_neg hp] at h
      obtain ⟨a, ha, rfl⟩ := Option.map_eq_some'.mp h
      obtain ⟨pre, c', post, rfl, hpre, hc', rfl⟩ := ih a ha
      refine ⟨c :: pre, c', post, rfl, ?_, hc', rfl⟩
      intro x hx
      rcases List.mem_cons.mp hx with rfl | hx
      · exact Bool.eq_false_iff.mpr hp
      · exact hpre x hx

/-- Helper: `updateFirst` succeeds when some element satisfies the
predicate. -/
theorem updateFirst_isSome (p : Elem → Bool) (f : Elem → Elem) :
    ∀ l : List Elem, (∃ x ∈ l, p x = true) → ∃ l', updateFirst p f l = some l' := by
  intro l
  induction l with
  | nil => intro h; simp at h
  | cons c cs ih =>
    intro h
    by_cases hp : p c
    · exact ⟨f c :: cs, by rw [updateFirst, if_pos hp]⟩
    · obtain ⟨x, hx, hpx⟩ := h
      rcases List.mem_cons.mp hx with rfl | hx
      · exact absurd hpx hp
      · obtain ⟨l', hl'⟩ := ih ⟨x, hx, hpx⟩
        exact ⟨c :: l', by rw [updateFirst, if_neg hp, hl']; rfl⟩

/-- Helper: `childrenTag` on a literal element. -/
theorem childrenTag_mk (tg t : String) (a : List Attr) (s : String) (cs : List Elem) :
    childrenTag tg (Elem.mk t a s cs) = cs.filter (fun c => c.tag == tg) := rfl

/-- Helper: a two-component path is the flat map of the two child-tag
selections. -/
theorem findPath_pair (root : Elem) (t1 t2 : String) :
    findPath root [t1, t2] = ((childrenTag t1 root).flatMap (childrenTag t2)).head? := by
  simp [findPath, pathAll]

/-- Helper: after a successful `replaceKeyInfo`, the first KeyInfo element
on the /Signature/KeyInfo path has the single KeyName child. -/
theorem replaceKeyInfo_keyname (signed tree : Elem) (kn : String)
    (h : replaceKeyInfo signed kn = some tree) :
    ∃ ki, findPath tree ["Signature", "KeyInfo"] = some ki ∧
      ki.children = [Elem.mk "KeyName" [] kn []] := by
  unfold replaceKeyInfo at h
  obtain ⟨cs, hcs, htree⟩ := Option.map_eq_some'.mp h
  obtain ⟨pre, c, post, hsplit, hpre, hc, rfl⟩ := updateFirst_eq_some _ _ _ _ hcs
  obtain ⟨htagC, hHas⟩ : (Elem.tag c == "Signature") = true ∧
      Elem.hasChildTag c "KeyInfo" = true := by simpa using hc
  obtain ⟨l2, hl2⟩ := updateFirst_isSome (fun k => k.tag == "KeyInfo") (setKeyName kn)
    c.children (by simpa [Elem.hasChildTag, List.any_eq_true] using hHas)
  obtain ⟨pre2, k, post2, hsplit2, hpre2, hk, rfl⟩ := updateFirst_eq_some _ _ _ _ hl2
  subst htree
  have hgetD : (updateFirst (fun k => k.tag == "KeyInfo") (setKeyName kn) c.children).getD
      c.children = pre2 ++ setKeyName kn k :: post2 := by rw [hl2]; rfl
  refine ⟨setKeyName kn k, ?_, rfl⟩
  rw [findPath_pair, childrenTag_mk, hgetD]
  rw [List.filter_append, List.filter_cons]
  rw [if_pos (show ((Elem.mk c.tag c.attrs c.text (pre2 ++ setKeyName kn k :: post2)).tag ==
    "Signature") = true from htagC)]
  rw [List.flatMap_append, List.flatMap_cons]
  have h1 : (List.filter (fun c => c.tag == "Signature") pre).flatMap (childrenTag "KeyInfo") =
      [] := by
    rw [List.flatMap_eq_nil_iff]
    intro x hx
    obtain ⟨hxmem, hxtag⟩ := List.mem_filter.mp hx
    have hpx := hpre x hxmem
    rw [hxtag, Bool.true_and] at hpx
    rw [show childrenTag "KeyInfo" x = x.children.filter (fun c => c.tag == "KeyInfo") from rfl]
    rw [List.filter_eq_nil_iff]
    intro a hamem hatag
    have hany : x.children.any (fun c => c.tag == "KeyInfo") = true :=
      List.any_eq_true.mpr ⟨a, hamem, hatag⟩
    rw [show Elem.hasChildTag x "KeyInfo" = x.children.any (fun c => c.tag == "KeyInfo")
      from rfl] at hpx
    simp [hany] at hpx
  rw [h1, childrenTag_mk]
  have h2 : (pre2 ++ setKeyName kn k :: post2).filter (fun c => c.tag == "KeyInfo") =
      setKeyName kn k :: post2.filter (fun c => c.tag == "KeyInfo") := by
    rw [List.filter_append,
      List.filter_eq_nil_iff.mpr (fun a ha => by simp [hpre2 a ha]),
      List.filter_cons, if_pos (show ((setKeyName kn k).tag == "KeyInfo") = true from hk)]
    simp
  rw [h2]
  simp

/-- C1: the claim states that for every directory response with multiple
Country elements, parseDirectoryRequest returns one key per country display
name, each holding exactly that country's (issuerID, issuerName) pairs in
response order.  The code violates this: the loop bodies look the country
name and the issuer fields up with ABSOLUTE etree paths whose receiver only
supplies the tree root, so every iteration reads the first country's name
and the first issuer's identifier and name, and the inner loop ranges over
the issuers of all countries.  On the spec's own two-country example the
result is a single key "Netherlands" holding six copies of
("INGBNL2A", "ING") instead of the claimed two-key mapping. -/
theorem C1_directory_parse_at_spec_example :
    CommonClient.parseDirectoryRequest exampleDirectoryResponse =
      .ok ⟨[("Netherlands", [⟨"INGBNL2A", "ING"⟩, ⟨"INGBNL2A", "ING"⟩, ⟨"INGBNL2A", "ING"⟩,
        ⟨"INGBNL2A", "ING"⟩, ⟨"INGBNL2A", "ING"⟩, ⟨"INGBNL2A", "ING"⟩])]⟩ := by
  rfl

/-- C2, counterexample: the claim states that NewTransaction of the identity
variant refuses to build the message and reports a local validation error
when the attribute bitmask is zero or the caller-supplied unique identifier
is empty.  The code has no validation and no error channel: called with
bitmask 0 and empty id it still emits the full transaction message, whose
AuthnRequest carries ID "" and AttributeConsumingServiceIndex "0". -/
theorem C2_counterexample :
    ∃ authn : Elem,
      findPath (IDINClient.NewTransaction ⟨exampleCommonClient⟩ "INGBNL2A" "session1" "" 0
          "2026-01-01T00:00:00Z") ["Transaction", "container", "samlp:AuthnRequest"] =
        some authn
      ∧ authn.attrValue "ID" "missing" = ""
      ∧ authn.attrValue "AttributeConsumingServiceIndex" "missing" = "0" := by
  exact ⟨_, rfl, rfl, rfl⟩

/-- C2, amended: NewTransaction of the identity variant performs no local
validation at all: for every input, including a zero attribute bitmask and
an empty identifier, the transaction message is built and returned, with the
bitmask written in decimal into AttributeConsumingServiceIndex and the
identifier written verbatim into ID; rejection is left to the bank. -/
theorem C2_no_local_validation :
    ∀ (c : IDINClient) (issuer entranceCode id : String) (attributes : Int) (now : String),
      ∃ authn : Elem,
        findPath (IDINClient.NewTransaction c issuer entranceCode id attributes now)
            ["Transaction", "container", "samlp:AuthnRequest"] = some authn
        ∧ authn.attrValue "ID" "missing" = id
        ∧ authn.attrValue "AttributeConsumingServiceIndex" "missing" = toString attributes := by
  intro c issuer entranceCode id attributes now
  exact ⟨_, rfl, rfl, rfl⟩

/-- C3: in both the payment and the identity variant of TransactionStatus,
whenever the transaction identifier element the code reads from the
validated response carries a text that differs from the requested identifier,
the call fails with the identity-integrity error ("idx: returned transaction
ID does not match") and returns no status result, whatever else (in
particular whatever status) the response carries: the comparison precedes
every status lookup. -/
theorem C3_transaction_id_echo_check :
    (∀ (trxid : String) (resp tEl : Elem),
      findPath resp ["Transaction", "transactionID"] = some tEl →
      tEl.text ≠ trxid →
      IDealClient.TransactionStatusInterpret trxid resp = .error .idMismatch)
    ∧ (∀ (decrypt : Elem → Except String Elem) (trxid : String) (resp tEl : Elem),
      findPath resp ["AcquirerStatusRes", "Transaction", "transactionID"] = some tEl →
      tEl.text ≠ trxid →
      IDINClient.TransactionStatusInterpret decrypt trxid resp = .error .idMismatch) := by
  constructor
  · intro trxid resp tEl h hne
    unfold IDealClient.TransactionStatusInterpret
    rw [h]
    simp [hne]
  · intro decrypt trxid resp tEl h hne
    unfold IDINClient.TransactionStatusInterpret
    rw [h]
    simp [hne]

/-- C3, witness: requesting "TX1" while the response echoes "TX2" with
status Success yields the integrity error in both variants. -/
theorem C3_witness :
    IDealClient.TransactionStatusInterpret "TX1" exampleIdealEchoTX2 = .error .idMismatch
    ∧ IDINClient.TransactionStatusInterpret exampleDecrypt "TX1" exampleIdinEchoTX2 =
        .error .idMismatch := by
  exact ⟨C3_transaction_id_echo_check.1 "TX1" exampleIdealEchoTX2 (elT "transactionID" "TX2")
      rfl (by decide),
    C3_transaction_id_echo_check.2 exampleDecrypt "TX1" exampleIdinEchoTX2
      (elT "transactionID" "TX2") rfl (by decide)⟩

/-- C4: for every field set, both NewTransaction builders place the Issuer
block strictly before the Merchant block in the document order of the built
message (positions 1 and 2 of the root's children). -/
theorem C4_issuer_before_merchant :
    (∀ (c : IDealClient) (issuer purchaseID amount description entranceCode now : String),
      ∃ i j : Nat, i < j ∧
        (((IDealClient.NewTransaction c issuer purchaseID amount description entranceCode
            now).children.map Elem.tag)[i]? = some "Issuer") ∧
        (((IDealClient.NewTransaction c issuer purchaseID amount description entranceCode
            now).children.map Elem.tag)[j]? = some "Merchant"))
    ∧ (∀ (c : IDINClient) (issuer entranceCode id : String) (attributes : Int) (now : String),
      ∃ i j : Nat, i < j ∧
        (((IDINClient.NewTransaction c issuer entranceCode id attributes
            now).children.map Elem.tag)[i]? = some "Issuer") ∧
        (((IDINClient.NewTransaction c issuer entranceCode id attributes
            now).children.map Elem.tag)[j]? = some "Merchant")) := by
  constructor
  · intro c issuer purchaseID amount description entranceCode now
    exact ⟨1, 2, by decide, rfl, rfl⟩
  · intro c issuer entranceCode id attributes now
    exact ⟨1, 2, by decide, rfl, rfl⟩

/-- C5: for every received document whose first child element is tagged
AcquirerErrorRes and carries the four error fields at their fixed paths, the
directory call returns exactly those four strings as the AcquirerError and
nothing else, for EVERY signature-validation oracle: the error envelope is
detected in `request` before `validateMessage` can run, so the result does
not depend on the validator. -/
theorem C5_error_envelope :
    ∀ (validate : Elem → Except IdxError Elem) (doc root cEl mEl dEl cmEl : Elem),
      doc.children.head? = some root →
      root.tag = "AcquirerErrorRes" →
      findPath doc ["AcquirerErrorRes", "Error", "errorCode"] = some cEl →
      findPath doc ["AcquirerErrorRes", "Error", "errorMessage"] = some mEl →
      findPath doc ["AcquirerErrorRes", "Error", "errorDetail"] = some dEl →
      findPath doc ["AcquirerErrorRes", "Error", "consumerMessage"] = some cmEl →
      directoryRequestInterpret validate doc =
        .error (.acquirer ⟨cEl.text, mEl.text, dEl.text, cmEl.text⟩) := by
  intro validate doc root cEl mEl dEl cmEl hhead htag hc hm hd hcm
  unfold directoryRequestInterpret clientRequest
  rw [hhead]
  simp [htag, hc, hm, hd, hcm, Bind.bind, Except.bind]

/-- C5, witness: the spec's SO1000 error envelope is returned as the
AcquirerError even under a validator that rejects everything. -/
theorem C5_witness :
    directoryRequestInterpret (fun _ => .error (.validation "unreached"))
        exampleErrorEnvelopeDoc =
      .error (.acquirer ⟨"SO1000", "System error", "...", "Something went wrong"⟩) := by
  exact C5_error_envelope _ exampleErrorEnvelopeDoc _ _ _ _ _ rfl rfl rfl rfl rfl rfl

/-- C6: in both variants, once the echoed transaction identifier matches, a
status value outside the known five-way set -- a payment-variant status text
not among Success/Cancelled/Expired/Failure/Open, or an identity-variant
status URI outside the five SAML URIs -- makes the status call fail with the
invalid-status error carrying that value, returning no status result; it is
never mapped to a default status. -/
theorem C6_unknown_status_is_error :
    (∀ (trxid : String) (resp tEl sEl : Elem),
      findPath resp ["Transaction", "transactionID"] = some tEl →
      tEl.text = trxid →
      findPath resp ["Transaction", "status"] = some sEl →
      sEl.text ∉ idealStatusTexts →
      IDealClient.TransactionStatusInterpret trxid resp = .error (.invalidStatus sEl.text))
    ∧ (∀ (decrypt : Elem → Except String Elem) (trxid : String) (resp tEl scEl : Elem),
      findPath resp ["AcquirerStatusRes", "Transaction", "transactionID"] = some tEl →
      tEl.text = trxid →
      findPath resp ["AcquirerStatusRes", "Transaction", "container", "Response", "Status",
        "StatusCode"] = some scEl →
      scEl.attrValue "Value" "" ∉ samlStatusURIs →
      IDINClient.TransactionStatusInterpret decrypt trxid resp =
        .error (.invalidStatus (scEl.attrValue "Value" ""))) := by
  constructor
  · intro trxid resp tEl sEl ht htx hs hmem
    unfold IDealClient.TransactionStatusInterpret
    rw [ht]
    simp [htx, hs, parseIdealStatusText_invalid _ hmem]
  · intro decrypt trxid resp tEl scEl ht htx hs hmem
    unfold IDINClient.TransactionStatusInterpret
    rw [ht]
    simp [htx, hs, parseSamlStatusValue_unknown _ hmem]

/-- C6, witness: the unknown payment-variant status text "Weird" and an
unknown identity-variant status URI both produce the invalid-status
error. -/
theorem C6_witness :
    IDealClient.TransactionStatusInterpret "TX1" exampleIdealWeirdStatus =
      .error (.invalidStatus "Weird")
    ∧ IDINClient.TransactionStatusInterpret exampleDecrypt "TX1" exampleIdinWeirdStatus =
      .error (.invalidStatus "urn:oasis:names:tc:SAML:2.0:status:Weird") := by
  exact ⟨C6_unknown_status_is_error.1 "TX1" exampleIdealWeirdStatus
      (elT "transactionID" "TX1") (elT "status" "Weird") rfl rfl rfl (by decide),
    C6_unknown_status_is_error.2 exampleDecrypt "TX1" exampleIdinWeirdStatus
      (elT "transactionID" "TX1")
      (Elem.mk "StatusCode" [⟨"Value", "urn:oasis:names:tc:SAML:2.0:status:Weird"⟩] "" [])
      rfl rfl rfl (by decide)⟩

/-- C7: in the payment variant, once the echoed transaction identifier
matches: a Success status text yields a result carrying Status Success and
exactly the ConsumerName, ConsumerIBAN, ConsumerBIC, Amount and Currency
strings found at the fixed response locations, while each of the other four
known status texts yields a result carrying that status with every payload
field left empty. -/
theorem C7_payment_status_payload :
    ∀ (trxid : String) (resp tEl sEl : Elem),
      findPath resp ["Transaction", "transactionID"] = some tEl →
      tEl.text = trxid →
      findPath resp ["Transaction", "status"] = some sEl →
      ((∀ nEl ibEl bicEl amEl cuEl : Elem,
        sEl.text = "Success" →
        findPath resp ["Transaction", "consumerName"] = some nEl →
        findPath resp ["Transaction", "consumerIBAN"] = some ibEl →
        findPath resp ["Transaction", "consumerBIC"] = some bicEl →
        findPath resp ["Transaction", "amount"] = some amEl →
        findPath resp ["Transaction", "currency"] = some cuEl →
        IDealClient.TransactionStatusInterpret trxid resp =
          .ok ⟨.Success, nEl.text, ibEl.text, bicEl.text, amEl.text, cuEl.text⟩)
      ∧ (sEl.text = "Cancelled" →
        IDealClient.TransactionStatusInterpret trxid resp =
          .ok ⟨.Cancelled, "", "", "", "", ""⟩)
      ∧ (sEl.text = "Expired" →
        IDealClient.TransactionStatusInterpret trxid resp =
          .ok ⟨.Expired, "", "", "", "", ""⟩)
      ∧ (sEl.text = "Failure" →
        IDealClient.TransactionStatusInterpret trxid resp =
          .ok ⟨.Failure, "", "", "", "", ""⟩)
      ∧ (sEl.text = "Open" →
        IDealClient.TransactionStatusInterpret trxid resp =
          .ok ⟨.Open, "", "", "", "", ""⟩)) := by
  intro trxid resp tEl sEl ht htx hs
  refine ⟨?_, ?_, ?_, ?_, ?_⟩
  · intro nEl ibEl bicEl amEl cuEl hS hn hib hbic ham hcu
    unfold IDealClient.TransactionStatusInterpret
    rw [ht]
    simp [htx, hs, hS, parseIdealStatusText, hn, hib, hbic, ham, hcu]
  · intro hS
    unfold IDealClient.TransactionStatusInterpret
    rw [ht]
    simp [htx, hs, hS, parseIdealStatusText]
  · intro hS
    unfold IDealClient.TransactionStatusInterpret
    rw [ht]
    simp [htx, hs, hS, parseIdealStatusText]
  · intro hS
    unfold IDealClient.TransactionStatusInterpret
    rw [ht]
    simp [htx, hs, hS, parseIdealStatusText]
  · intro hS
    unfold IDealClient.TransactionStatusInterpret
    rw [ht]
    simp [htx, hs, hS, parseIdealStatusText]

/-- C7, witness: a Success response yields the populated payload, an Open
response yields Status Open with all payload fields empty. -/
theorem C7_witness :
    IDealClient.TransactionStatusInterpret "TX1" exampleIdealSuccess =
      .ok ⟨.Success, "J. Doe", "NL13TEST0123456789", "INGBNL2A", "1.00", "EUR"⟩
    ∧ IDealClient.TransactionStatusInterpret "TX1" exampleIdealOpen =
      .ok ⟨.Open, "", "", "", "", ""⟩ := by
  exact ⟨(C7_payment_status_payload "TX1" exampleIdealSuccess (elT "transactionID" "TX1")
      (elT "status" "Success") rfl rfl rfl).1 (elT "consumerName" "J. Doe")
      (elT "consumerIBAN" "NL13TEST0123456789") (elT "consumerBIC" "INGBNL2A")
      (elT "amount" "1.00") (elT "currency" "EUR") rfl rfl rfl rfl rfl rfl,
    (C7_payment_status_payload "TX1" exampleIdealOpen (elT "transactionID" "TX1")
      (elT "status" "Open") rfl rfl rfl).2.2.2.2 rfl⟩

/-- C8: for every signing identity and message, when the signing oracle
succeeds and the signed tree contains a Signature/KeyInfo element,
signMessage emits the complete document consisting of the XML declaration
header followed by the serialized tree, and in that tree the KeyInfo element
found at /Signature/KeyInfo holds exactly one child: a KeyName element whose
text is the upper-case hexadecimal digest (the `sha1` oracle stands for
crypto/sha1) of the DER-encoded leaf certificate, all default
key-identification children having been removed. -/
theorem C8_sign_message_keyname :
    ∀ (sign : Elem → Except String Elem) (serialize : Elem → String)
      (sha1 : List Nat → List Nat) (c : CommonClient) (msg signed tree : Elem)
      (leaf : List Nat) (rest : List (List Nat)),
      sign msg = .ok signed →
      c.certificate = leaf :: rest →
      replaceKeyInfo signed (goToUpper (hexEncode (sha1 leaf))) = some tree →
      CommonClient.signMessage sign serialize sha1 c msg =
        .ok (xmlHeader ++ serialize tree)
      ∧ ∃ ki, findPath tree ["Signature", "KeyInfo"] = some ki ∧
          ki.children = [Elem.mk "KeyName" [] (goToUpper (hexEncode (sha1 leaf))) []] := by
  intro sign serialize sha1 c msg signed tree leaf rest hsign hcert hrep
  constructor
  · simp only [CommonClient.signMessage, hsign, hcert, hrep]
  · exact replaceKeyInfo_keyname signed tree _ hrep

/-- C8, witness: with the concrete signing, serialization and digest
oracles, signMessage emits the header-prefixed document and the replaced
tree carries the single upper-case hex KeyName. -/
theorem C8_witness :
    CommonClient.signMessage exampleSign exampleSerialize exampleSha1 exampleCommonClient
        (elC "AcquirerTrxReq" []) =
      .ok (xmlHeader ++ exampleSerialize exampleReplacedTree)
    ∧ ∃ ki, findPath exampleReplacedTree ["Signature", "KeyInfo"] = some ki
      ∧ ki.children =
          [Elem.mk "KeyName" [] "123456789ABCDEF0123456789ABCDEF012345678" []] := by
  exact C8_sign_message_keyname exampleSign exampleSerialize exampleSha1 exampleCommonClient
    (elC "AcquirerTrxReq" []) exampleSignedTree exampleReplacedTree [48, 130, 1, 10] []
    rfl rfl rfl

/-- C9: in the identity variant, when the echoed identifier matches, the
status is the Success URI, and the encrypted-attribute list splits into a
prefix whose elements all decrypt into well-formed attributes followed by an
element whose decryption fails, the whole status call returns that
decryption failure and no result at all -- in particular no partial
attribute mapping containing the attributes decrypted before the
failure. -/
theorem C9_decrypt_failure_aborts :
    ∀ (decrypt : Elem → Except String Elem) (trxid : String) (resp tEl scEl bad : Elem)
      (pre post : List Elem) (d : String),
      findPath resp ["AcquirerStatusRes", "Transaction", "transactionID"] = some tEl →
      tEl.text = trxid →
      findPath resp ["AcquirerStatusRes", "Transaction", "container", "Response", "Status",
        "StatusCode"] = some scEl →
      scEl.attrValue "Value" "" = "urn:oasis:names:tc:SAML:2.0:status:Success" →
      pathAll resp encryptedDataPath = pre ++ bad :: post →
      (∀ x ∈ pre, ∃ dx aEl vEl, decrypt x = .ok dx ∧ findPath dx ["Attribute"] = some aEl ∧
        findPath dx ["Attribute", "AttributeValue"] = some vEl) →
      decrypt bad = .error d →
      IDINClient.TransactionStatusInterpret decrypt trxid resp =
        .error (.decryptError d) := by
  intro decrypt trxid resp tEl scEl bad pre post d ht htx hs hsv hsplit hpre hbad
  unfold IDINClient.TransactionStatusInterpret
  rw [ht]
  simp only [htx, ne_eq, not_true_eq_false, if_false, hs, hsv]
  rw [hsplit]
  simp [parseSamlStatusValue,
    decryptAttributes_first_error decrypt d bad hbad pre post hpre, Except.map]

/-- C9, witness: a Success response with two encrypted attributes, of which
the first decrypts and the second fails, aborts with the decryption error
and returns no attribute mapping. -/
theorem C9_witness :
    IDINClient.TransactionStatusInterpret exampleDecrypt "TX1" exampleIdinSuccessTwoAttrs =
      .error (.decryptError "idx: decryption failed") := by
  exact C9_decrypt_failure_aborts exampleDecrypt "TX1" exampleIdinSuccessTwoAttrs
    (elT "transactionID" "TX1")
    (Elem.mk "StatusCode" [⟨"Value", "urn:oasis:names:tc:SAML:2.0:status:Success"⟩] "" [])
    (Elem.mk "EncryptedData" [⟨"Id", "enc2"⟩] "" [])
    [Elem.mk "EncryptedData" [⟨"Id", "enc1"⟩] "" []] [] "idx: decryption failed"
    rfl rfl rfl rfl rfl
    (by
      intro x hx
      rw [List.mem_singleton] at hx
      subst hx
      exact ⟨_, _, _, rfl, rfl, rfl⟩)
    rfl

/-- C10: for every call to the payment-variant NewTransaction, whatever the
issuer, purchaseID, amount, description and entranceCode arguments, the
Transaction block of the built message carries a currency element with text
exactly "EUR" and a language element with text exactly "nl"; no argument of
the public interface reaches these elements. -/
theorem C10_fixed_currency_language :
    ∀ (c : IDealClient) (issuer purchaseID amount description entranceCode now : String),
      findPath (IDealClient.NewTransaction c issuer purchaseID amount description entranceCode
          now) ["Transaction", "currency"] = some (elT "currency" "EUR")
      ∧ findPath (IDealClient.NewTransaction c issuer purchaseID amount description
          entranceCode now) ["Transaction", "language"] = some (elT "language" "nl") := by
  intro c issuer purchaseID amount description entranceCode now
  exact ⟨rfl, rfl⟩
